import Mathlib

/-!
Verification of the `FormulaParser` formula mini-language from
`src/KPIs/formulas.py`.

The evaluator is embedded shallowly:

* Python strings are worked on as `List Char` (a formula enters as `String`
  and is immediately viewed through `String.data`).
* A pandas `DataFrame` is a list of named columns; a column is a list of
  cells.  A cell is `null` (pandas NaN / missing), a number, or a string.
  Python floats are modelled by `ℚ`: every number occurring in the claims is
  exactly representable, and the code performs only field operations.
* `raise ValueError(...)` is modelled by `Except EvalError`, with the error
  payload carrying the same data the Python message interpolates.
* Regex use in the source is small and fixed, and is translated operation by
  operation: `re.match(r'^(sum|count|avg|mean|min|max|nunique)\(', f, I)` is a
  case-insensitive literal-prefix test, `re.match(r'(\w+)\((.*)\)', f)` takes
  the maximal word-character run, an opening paren, and everything up to the
  last `')'` before a newline, and `re.sub(r'distinct\s+', '', e, I)` is a
  left-to-right scan deleting case-insensitive `"distinct"` followed by a
  maximal nonempty whitespace run.
* The ASCII fragment is modelled: `\w` is `[A-Za-z0-9_]`, `\s` and
  `str.strip()` use space/tab/CR/LF.  Column arithmetic (`*`, `sum`, `mean`,
  `min`, `max`) is modelled on numeric-or-null columns, with pandas NaN
  skipping; string-typed cells never reach arithmetic in any theorem below
  (theorems carry all-numeric hypotheses), and `min`/`max`/`mean` of an
  empty selection, NaN in pandas, is outside the modelled fragment
  (theorems require nonempty numeric columns).
-/

/- ## Character and string primitives -/

/-- The character class `\w` of Python's `re`, ASCII fragment. -/
def isWordChar (c : Char) : Bool := c.isAlphanum || c == '_'

/-- Python `str.strip()`: drop whitespace from both ends. -/
def trim (l : List Char) : List Char :=
  ((l.dropWhile Char.isWhitespace).reverse.dropWhile Char.isWhitespace).reverse

/-- Case-insensitive match of a (pre-lowercased) literal pattern at the start
of the subject, as a regex `re.match` with `re.IGNORECASE` does for a literal. -/
def startsWithCI : List Char → List Char → Bool
  | [], _ => true
  | _ :: _, [] => false
  | p :: ps, c :: cs => (c.toLower == p) && startsWithCI ps cs

/-- Case-insensitive substring test: `pat in subject.lower()` for a
pre-lowercased `pat`. -/
def containsCI (p : List Char) : List Char → Bool
  | [] => p.isEmpty
  | c :: cs => startsWithCI p (c :: cs) || containsCI p cs

/-- The test `'distinct' in s.lower()` of the source. -/
def containsDistinct (l : List Char) : Bool := containsCI (("distinct").data) l

/-- Python `str.split(sep)` for a single-character separator: no collapsing of empty
pieces, and the empty string splits to one empty piece. -/
def splitChar (sep : Char) : List Char → List (List Char)
  | [] => [[]]
  | c :: rest =>
    match splitChar sep rest with
    | [] => [[c]]
    | cur :: rs => if c == sep then [] :: cur :: rs else (c :: cur) :: rs

/-- Does the regex `distinct\s+` (with `re.IGNORECASE`) match at the head of
`l`: the literal followed by at least one whitespace character. -/
def distinctWsAt (l : List Char) : Bool :=
  startsWithCI (("distinct").data) l &&
    match l.drop 8 with
    | c :: _ => c.isWhitespace
    | [] => false

/-- One left-to-right pass of `re.sub(r'distinct\s+', '', l, re.IGNORECASE)`:
at each position, if the pattern matches, delete the match (the literal and
the maximal whitespace run after it) and continue after it, else keep the
character.  The fuel argument only serves structural recursion; each match
consumes at least nine characters, so `fuel = l.length` never runs out. -/
def stripDistinctGo : Nat → List Char → List Char
  | 0, l => l
  | _, [] => []
  | fuel + 1, c :: rest =>
    if distinctWsAt (c :: rest) then
      stripDistinctGo fuel (((c :: rest).drop 8).dropWhile Char.isWhitespace)
    else
      c :: stripDistinctGo fuel rest

/-- The substitution `re.sub(r'distinct\s+', '', l, flags=re.IGNORECASE)`. -/
def stripDistinct (l : List Char) : List Char := stripDistinctGo l.length l

/-- Value of a nonempty digit string. -/
def digitsVal (ds : List Char) : Nat :=
  ds.foldl (fun n c => 10 * n + (c.toNat - 48)) 0

/-- Python's `float(s)` on plain decimal literals: optional surrounding
whitespace, optional sign, digits with optional fraction, optional exponent,
and the whole string must be consumed.  The special spellings `inf`/`nan` and
digit-group underscores are outside the modelled fragment (no claim uses
them). -/
def parseFloat? (l0 : List Char) : Option ℚ :=
  let l1 := trim l0
  let sl : Bool × List Char :=
    match l1 with
    | '-' :: r => (true, r)
    | '+' :: r => (false, r)
    | r => (false, r)
  let l := sl.2
  let ip := l.takeWhile Char.isDigit
  let r1 := l.drop ip.length
  let fr : List Char × List Char :=
    match r1 with
    | '.' :: r => (r.takeWhile Char.isDigit, r.drop (r.takeWhile Char.isDigit).length)
    | r => ([], r)
  let fp := fr.1
  if ip.isEmpty && fp.isEmpty then none
  else
    let mant0 : ℚ := (digitsVal ip : ℚ) + (digitsVal fp : ℚ) / ((10 : ℚ) ^ fp.length)
    let mant : ℚ := if sl.1 then -mant0 else mant0
    match fr.2 with
    | [] => some mant
    | e :: r3 =>
      if e == 'e' || e == 'E' then
        let es : Bool × List Char :=
          match r3 with
          | '-' :: r => (true, r)
          | '+' :: r => (false, r)
          | r => (false, r)
        let ed := es.2.takeWhile Char.isDigit
        if ed.isEmpty || !(es.2.drop ed.length).isEmpty then none
        else
          let ev : ℤ := if es.1 then -(digitsVal ed : ℤ) else (digitsVal ed : ℤ)
          some (mant * (10 : ℚ) ^ ev)
      else none

/-- A plain identifier: nonempty, made of `\w` characters only.  Column
names quantified over by the general theorems are of this shape, so that the
formula strings built from them parse the way the claims describe. -/
def isIdent (l : List Char) : Bool := !l.isEmpty && l.all isWordChar

/- ## Data model -/

/-- One cell of a pandas column: missing (NaN/None), numeric, or string. -/
inductive Cell where
  | null : Cell
  | num : ℚ → Cell
  | str : String → Cell
deriving DecidableEq

/-- Element-wise `*` of two cells, as pandas aligns and multiplies two
series: NaN propagates.  String operands never reach multiplication in the
fragment used by the theorems (they would raise or concatenate in pandas);
they are mapped to `null` here and excluded by all-numeric hypotheses. -/
def Cell.mul : Cell → Cell → Cell
  | Cell.num a, Cell.num b => Cell.num (a * b)
  | _, _ => Cell.null

/-- The numeric entries of a column, in order (pandas `skipna` view). -/
def cellNums : List Cell → List ℚ
  | [] => []
  | Cell.num q :: rest => q :: cellNums rest
  | _ :: rest => cellNums rest

/-- Pandas `Series.sum()`: sum of the non-missing numeric entries (pandas sums an
all-NaN or empty column to 0.0). -/
def colSum (l : List Cell) : ℚ := (cellNums l).sum

/-- Pandas `Series.count()`: number of non-null entries (strings included). -/
def colCount : List Cell → Nat
  | [] => 0
  | Cell.null :: rest => colCount rest
  | _ :: rest => 1 + colCount rest

/-- Pandas `Series.nunique()`: number of distinct non-null values. -/
def colNunique (l : List Cell) : Nat :=
  ((l.filter (fun c => c != Cell.null)).dedup).length

/-- Pandas `Series.mean()`: sum of the numeric entries over their number.  On an
empty selection pandas yields NaN; theorems below require nonempty columns. -/
def colMean (l : List Cell) : ℚ :=
  (cellNums l).sum / ((cellNums l).length : ℚ)

/-- Pandas `Series.min()` over the numeric entries (NaN on empty is outside the
fragment; theorems require nonempty numeric columns). -/
def colMin (l : List Cell) : ℚ :=
  match cellNums l with
  | [] => 0
  | x :: xs => xs.foldl min x

/-- Pandas `Series.max()` over the numeric entries. -/
def colMax (l : List Cell) : ℚ :=
  match cellNums l with
  | [] => 0
  | x :: xs => xs.foldl max x

/-- The dataframe held by `FormulaParser.__init__`. -/
structure DataFrame where
  cols : List (String × List Cell)

/-- The column-name list `df.columns`. -/
def DataFrame.colNames (df : DataFrame) : List String := df.cols.map Prod.fst

/-- The membership test `col in df.columns`. -/
def DataFrame.hasCol (df : DataFrame) (c : String) : Bool := df.colNames.contains c

/-- Column subscription `df[col]` (first column of that name; total, but only consulted after a
`hasCol` check, as the source checks membership before subscripting). -/
def DataFrame.get (df : DataFrame) (c : String) : List Cell :=
  match df.cols.find? (fun p => p.1 == c) with
  | some p => p.2
  | none => []

/- ## The evaluator (`FormulaParser`) -/

/-- The set `FormulaParser.ALLOWED_FUNCTIONS`. -/
def ALLOWED_FUNCTIONS : List String :=
  ["sum", "count", "avg", "mean", "min", "max", "distinct", "nunique"]

/-- The errors raised by the parser, carrying the data interpolated into the
corresponding Python `ValueError` message. -/
inductive EvalError where
  | unsupportedPattern : String → EvalError
  | invalidAggregate : String → EvalError
  | functionNotAllowed : String → List String → EvalError
  | unsupportedFunction : String → EvalError
  | complexExpr : String → EvalError
  | columnNotFound : List String → EvalError
  | invalidRatioShape : String → EvalError
  | cannotEvaluate : String → EvalError
deriving DecidableEq

deriving instance DecidableEq for Except

/-- The alternation of `FormulaParser._is_aggregate_function`'s regex, in
source order. -/
def AGG_FN_NAMES : List String :=
  ["sum", "count", "avg", "mean", "min", "max", "nunique"]

/-- Source `FormulaParser._is_aggregate_function`: the formula begins (case
insensitively) with one of the seven names immediately followed by `(`. -/
def isAggregateFn (l : List Char) : Bool :=
  AGG_FN_NAMES.any (fun n => startsWithCI (n.data ++ ['(']) l)

/-- The match `re.match(r'(\w+)\((.*)\)', formula)`: the maximal word-character run,
then `(`, then (greedy `.*`, which cannot cross a newline) everything up to
the last `')'`; `none` when there is no word character, no `(`, or no
closing `')'`. -/
def matchAgg (l : List Char) : Option (List Char × List Char) :=
  if (l.takeWhile isWordChar).isEmpty then none
  else
    match l.drop (l.takeWhile isWordChar).length with
    | '(' :: rest =>
      match (rest.takeWhile (fun c => c != '\n')).reverse.dropWhile (fun c => c != ')') with
      | [] => none
      | _ :: tl => some (l.takeWhile isWordChar, tl.reverse)
    | _ => none

/-- Source `FormulaParser._execute_distinct_count`. -/
def executeDistinctCount (df : DataFrame) (expr : List Char) : Except EvalError ℚ :=
  if df.hasCol (String.mk (trim (stripDistinct expr))) then
    Except.ok ((colNunique (df.get (String.mk (trim (stripDistinct expr)))) : ℚ))
  else Except.error (EvalError.columnNotFound [String.mk (trim (stripDistinct expr))])

/-- Source `FormulaParser._execute_sum`. -/
def executeSum (df : DataFrame) (expr : List Char) : Except EvalError ℚ :=
  if expr.contains '*' then
    match (splitChar '*' expr).map trim with
    | [p1, p2] =>
      if df.hasCol (String.mk p1) && df.hasCol (String.mk p2) then
        Except.ok (colSum (List.zipWith Cell.mul (df.get (String.mk p1)) (df.get (String.mk p2))))
      else Except.error (EvalError.columnNotFound [String.mk p1, String.mk p2])
    | _ => Except.error (EvalError.complexExpr (String.mk expr))
  else
    if df.hasCol (String.mk (trim expr)) then Except.ok (colSum (df.get (String.mk (trim expr))))
    else Except.error (EvalError.columnNotFound [String.mk (trim expr)])

/-- Source `FormulaParser._execute_count`. -/
def executeCount (df : DataFrame) (expr : List Char) : Except EvalError ℚ :=
  if containsDistinct expr then executeDistinctCount df expr
  else
    if df.hasCol (String.mk (trim expr)) then Except.ok ((colCount (df.get (String.mk (trim expr))) : ℚ))
    else Except.error (EvalError.columnNotFound [String.mk (trim expr)])

/-- Source `FormulaParser._execute_avg`. -/
def executeAvg (df : DataFrame) (expr : List Char) : Except EvalError ℚ :=
  if expr.contains '*' then
    match (splitChar '*' expr).map trim with
    | [p1, p2] =>
      if df.hasCol (String.mk p1) && df.hasCol (String.mk p2) then
        Except.ok (colMean (List.zipWith Cell.mul (df.get (String.mk p1)) (df.get (String.mk p2))))
      else Except.error (EvalError.columnNotFound [String.mk p1, String.mk p2])
    | _ => Except.error (EvalError.complexExpr (String.mk expr))
  else
    if df.hasCol (String.mk (trim expr)) then Except.ok (colMean (df.get (String.mk (trim expr))))
    else Except.error (EvalError.columnNotFound [String.mk (trim expr)])

/-- Source `FormulaParser._execute_min`. -/
def executeMin (df : DataFrame) (expr : List Char) : Except EvalError ℚ :=
  if df.hasCol (String.mk (trim expr)) then Except.ok (colMin (df.get (String.mk (trim expr))))
  else Except.error (EvalError.columnNotFound [String.mk (trim expr)])

/-- Source `FormulaParser._execute_max`. -/
def executeMax (df : DataFrame) (expr : List Char) : Except EvalError ℚ :=
  if df.hasCol (String.mk (trim expr)) then Except.ok (colMax (df.get (String.mk (trim expr))))
  else Except.error (EvalError.columnNotFound [String.mk (trim expr)])

/-- Source `FormulaParser._execute_aggregate`: extract name and args, lower the
name, strip the args, check the allowed set, check the `distinct` override
before dispatching on the name. -/
def executeAggregate (df : DataFrame) (l : List Char) : Except EvalError ℚ :=
  match matchAgg l with
  | none => Except.error (EvalError.invalidAggregate (String.mk l))
  | some (nameRaw, argsRaw) =>
    if ALLOWED_FUNCTIONS.contains (String.mk (nameRaw.map Char.toLower)) then
      if containsDistinct (trim argsRaw) then executeDistinctCount df (trim argsRaw)
      else if String.mk (nameRaw.map Char.toLower) == "sum" then
        executeSum df (trim argsRaw)
      else if String.mk (nameRaw.map Char.toLower) == "count"
          || String.mk (nameRaw.map Char.toLower) == "nunique" then
        executeCount df (trim argsRaw)
      else if String.mk (nameRaw.map Char.toLower) == "avg"
          || String.mk (nameRaw.map Char.toLower) == "mean" then
        executeAvg df (trim argsRaw)
      else if String.mk (nameRaw.map Char.toLower) == "min" then
        executeMin df (trim argsRaw)
      else if String.mk (nameRaw.map Char.toLower) == "max" then
        executeMax df (trim argsRaw)
      else Except.error (EvalError.unsupportedFunction (String.mk (nameRaw.map Char.toLower)))
    else Except.error (EvalError.functionNotAllowed (String.mk (nameRaw.map Char.toLower)) ALLOWED_FUNCTIONS)

/-- Source `FormulaParser._evaluate_simple_expression`: aggregate, else existing
column (summed), else numeric literal, else error. -/
def evaluateSimpleExpr (df : DataFrame) (expr : List Char) : Except EvalError ℚ :=
  if isAggregateFn expr then executeAggregate df expr
  else if df.hasCol (String.mk expr) then Except.ok (colSum (df.get (String.mk expr)))
  else
    match parseFloat? expr with
    | some q => Except.ok q
    | none => Except.error (EvalError.cannotEvaluate (String.mk expr))

/-- Source `FormulaParser._execute_ratio`: split on `/` into exactly two sides,
evaluate numerator then denominator, return 0.0 on a zero denominator,
else the quotient. -/
def executeDivision (df : DataFrame) (l : List Char) : Except EvalError ℚ :=
  match splitChar '/' l with
  | [n, d] => do
    let numV ← evaluateSimpleExpr df (trim n)
    let denV ← evaluateSimpleExpr df (trim d)
    if denV = 0 then pure 0 else pure (numV / denV)
  | _ => Except.error (EvalError.invalidRatioShape (String.mk l))

/-- Source `FormulaParser.parse_and_execute`: strip, then aggregate shape first,
then ratio shape, else "Unsupported formula pattern". -/
def parseAndExecute (df : DataFrame) (formula : String) : Except EvalError ℚ :=
  if isAggregateFn (trim formula.data) then executeAggregate df (trim formula.data)
  else if (trim formula.data).contains '/' then executeDivision df (trim formula.data)
  else Except.error (EvalError.unsupportedPattern (String.mk (trim formula.data)))

/-- Source `calculate_kpi_value`. -/
def calculate_kpi_value (df : DataFrame) (formula : String) : Except EvalError ℚ :=
  parseAndExecute df formula

/- ## Concrete datasets -/

/-- The concrete scenario dataset of the specification:
`{InvoiceNo: [001,001,002,003], Quantity: [2,3,1,5], UnitPrice: [10,15,20,5]}`
(invoice numbers are identifier strings, as loaded by the ingestion layer). -/
def scenarioDF : DataFrame :=
  ⟨[("InvoiceNo", [Cell.str "001", Cell.str "001", Cell.str "002", Cell.str "003"]),
    ("Quantity", [Cell.num 2, Cell.num 3, Cell.num 1, Cell.num 5]),
    ("UnitPrice", [Cell.num 10, Cell.num 15, Cell.num 20, Cell.num 5])]⟩

/-- A dataset whose column name contains the letters `distinct` with no
whitespace after them. -/
def distinctDF : DataFrame :=
  ⟨[("DistinctID", [Cell.num 1, Cell.num 1, Cell.num 2])]⟩


/- ## Toolbox: characters, trimming, splitting -/

theorem wordChar_not_ws {c : Char} (h : isWordChar c = true) : c.isWhitespace = false := by
  by_contra hw
  rw [Bool.not_eq_false] at hw
  simp only [Char.isWhitespace, Bool.or_eq_true, decide_eq_true_eq] at hw
  rcases hw with ((rfl | rfl) | rfl) | rfl <;> exact absurd h (by decide)

theorem word_ne {c d : Char} (h : isWordChar c = true) (hd : isWordChar d = false) : c ≠ d := by
  intro e
  subst e
  rw [h] at hd
  exact Bool.noConfusion hd

theorem dropWhile_eq_self_of_head {p : Char → Bool} {l : List Char}
    (h : ∀ x, l.head? = some x → p x = false) : l.dropWhile p = l := by
  cases l with
  | nil => rfl
  | cons c t => simp [List.dropWhile_cons, h c rfl]

theorem dropWhile_append_of_all {p : Char → Bool} {l1 l2 : List Char}
    (h : ∀ x ∈ l1, p x = true) : (l1 ++ l2).dropWhile p = l2.dropWhile p := by
  induction l1 with
  | nil => simp
  | cons a t ih =>
    simp only [List.cons_append, List.dropWhile_cons, h a (by simp), if_pos rfl]
    exact ih (fun x hx => h x (by simp [hx]))

theorem dropWhile_eq_nil_of_all {p : Char → Bool} {l : List Char}
    (h : ∀ x ∈ l, p x = true) : l.dropWhile p = [] := by
  induction l with
  | nil => rfl
  | cons a t ih => simp [List.dropWhile_cons, h a (by simp), ih (fun x hx => h x (by simp [hx]))]

theorem takeWhile_append_of_all {p : Char → Bool} {l1 l2 : List Char}
    (h : ∀ x ∈ l1, p x = true) : (l1 ++ l2).takeWhile p = l1 ++ l2.takeWhile p := by
  induction l1 with
  | nil => simp
  | cons a t ih =>
    simp [List.takeWhile_cons, h a (by simp), ih (fun x hx => h x (by simp [hx]))]

theorem takeWhile_eq_self_of_all {p : Char → Bool} {l : List Char}
    (h : ∀ x ∈ l, p x = true) : l.takeWhile p = l := by
  induction l with
  | nil => rfl
  | cons a t ih => simp [List.takeWhile_cons, h a (by simp), ih (fun x hx => h x (by simp [hx]))]

theorem trim_eq_self_of_ends {l : List Char}
    (h1 : ∀ x, l.head? = some x → x.isWhitespace = false)
    (h2 : ∀ x, l.getLast? = some x → x.isWhitespace = false) :
    trim l = l := by
  unfold trim
  rw [dropWhile_eq_self_of_head h1]
  rw [dropWhile_eq_self_of_head (fun x hx => h2 x ((List.head?_reverse l) ▸ hx))]
  exact List.reverse_reverse l

theorem trim_eq_self_of_all {l : List Char}
    (h : ∀ x ∈ l, x.isWhitespace = false) : trim l = l := by
  refine trim_eq_self_of_ends (fun x hx => ?_) (fun x hx => ?_)
  · cases l with
    | nil => exact Option.noConfusion hx
    | cons a t =>
      have : a = x := by simpa using hx
      exact this ▸ h a (by simp)
  · exact h x (List.mem_of_mem_getLast? hx)

theorem trim_sandwich {u a v : List Char}
    (hu : ∀ x ∈ u, x.isWhitespace = true) (hv : ∀ x ∈ v, x.isWhitespace = true)
    (ha : ∀ x ∈ a, x.isWhitespace = false) (hne : a ≠ []) :
    trim (u ++ a ++ v) = a := by
  unfold trim
  rw [List.append_assoc, dropWhile_append_of_all hu]
  obtain ⟨c, t, rfl⟩ := List.exists_cons_of_ne_nil hne
  rw [show ((c :: t) ++ v : List Char).dropWhile Char.isWhitespace = (c :: t) ++ v from by
    simp [List.dropWhile_cons, ha c (by simp)]]
  rw [List.reverse_append]
  rw [dropWhile_append_of_all (fun x hx => hv x (by simpa using hx))]
  rw [dropWhile_eq_self_of_head (fun x hx => ha x
    (List.mem_of_mem_getLast? ((List.head?_reverse (c :: t)) ▸ hx)))]
  exact List.reverse_reverse (c :: t)

theorem splitChar_ne_nil (sep : Char) (l : List Char) : splitChar sep l ≠ [] := by
  induction l with
  | nil => simp [splitChar]
  | cons c t ih =>
    simp only [splitChar]
    rcases hs : splitChar sep t with _ | ⟨cur, rs⟩
    · simp
    · by_cases hc : (c == sep) = true <;> simp [hc]

theorem splitChar_of_not_mem {sep : Char} {l : List Char} (h : sep ∉ l) :
    splitChar sep l = [l] := by
  induction l with
  | nil => rfl
  | cons c t ih =>
    have hc : (c == sep) = false := by
      simp only [beq_eq_false_iff_ne]
      intro e
      exact h (by simp [e])
    simp [splitChar, ih (fun hm => h (by simp [hm])), hc]

theorem splitChar_append_sep {sep : Char} {a b : List Char} (h : sep ∉ a) :
    splitChar sep (a ++ sep :: b) = a :: splitChar sep b := by
  induction a with
  | nil =>
    obtain ⟨cur, rs, hs⟩ : ∃ cur rs, splitChar sep b = cur :: rs := by
      rcases hb : splitChar sep b with _ | ⟨x, y⟩
      · exact absurd hb (splitChar_ne_nil sep b)
      · exact ⟨x, y, rfl⟩
    simp [splitChar, hs]
  | cons c t ih =>
    have hc : (c == sep) = false := by
      simp only [beq_eq_false_iff_ne]
      intro e
      exact h (by simp [e])
    have ht : sep ∉ t := fun hm => h (by simp [hm])
    simp [splitChar, ih ht, hc]

theorem contains_eq_true_of_mem {l : List Char} {a : Char} (h : a ∈ l) :
    l.contains a = true := by
  induction l with
  | nil => exact absurd h (by simp)
  | cons c t ih =>
    rcases List.mem_cons.1 h with rfl | h2
    · rw [List.contains_cons]
      simp
    · rw [List.contains_cons, ih h2, Bool.or_true]

theorem contains_eq_false_of_not_mem {l : List Char} {a : Char} (h : a ∉ l) :
    l.contains a = false := by
  induction l with
  | nil => rfl
  | cons c t ih =>
    have h1 : (a == c) = false := by
      simp only [beq_eq_false_iff_ne]
      intro e
      exact h (by simp [e])
    rw [List.contains_cons, h1, Bool.false_or]
    exact ih (fun hm => h (by simp [hm]))

theorem isIdent_ne_nil {l : List Char} (h : isIdent l = true) : l ≠ [] := by
  intro e
  subst e
  exact Bool.noConfusion h

theorem isIdent_word {l : List Char} (h : isIdent l = true) : ∀ x ∈ l, isWordChar x = true := by
  have h2 : l.all isWordChar = true := by
    have := h
    unfold isIdent at this
    exact (Bool.and_eq_true _ _).mp this |>.2
  exact List.all_eq_true.1 h2

theorem isIdent_no_ws {l : List Char} (h : isIdent l = true) :
    ∀ x ∈ l, x.isWhitespace = false :=
  fun x hx => wordChar_not_ws (isIdent_word h x hx)

theorem isIdent_not_mem {l : List Char} {c : Char} (h : isIdent l = true)
    (hc : isWordChar c = false) : c ∉ l := by
  intro hm
  rw [isIdent_word h c hm] at hc
  exact Bool.noConfusion hc

/- ## Toolbox: the distinct-stripping scan -/

theorem distinctWsAt_eq_false_of_no_ws {l : List Char}
    (h : ∀ x ∈ l, x.isWhitespace = false) : distinctWsAt l = false := by
  unfold distinctWsAt
  rcases hd : l.drop 8 with _ | ⟨c, t⟩
  · exact Bool.and_false _
  · have hc : c ∈ l := List.mem_of_mem_drop (by rw [hd]; exact List.mem_cons_self c t)
    show (startsWithCI (("distinct").data) l && c.isWhitespace) = false
    rw [h c hc]
    exact Bool.and_false _

theorem stripDistinctGo_of_no_ws (fuel : Nat) {l : List Char}
    (h : ∀ x ∈ l, x.isWhitespace = false) : stripDistinctGo fuel l = l := by
  induction fuel generalizing l with
  | zero => cases l <;> rfl
  | succ n ih =>
    cases l with
    | nil => rfl
    | cons c t =>
      rw [stripDistinctGo, distinctWsAt_eq_false_of_no_ws h]
      simp only [Bool.false_eq_true, if_false]
      rw [ih (fun x hx => h x (by simp [hx]))]

theorem stripDistinct_of_no_ws {l : List Char}
    (h : ∀ x ∈ l, x.isWhitespace = false) : stripDistinct l = l :=
  stripDistinctGo_of_no_ws l.length h

theorem stripDistinct_leading {a : List Char}
    (h : ∀ x ∈ a, x.isWhitespace = false) :
    stripDistinct ('d' :: 'i' :: 's' :: 't' :: 'i' :: 'n' :: 'c' :: 't' :: ' ' :: a) = a := by
  show stripDistinctGo (a.length + 9) ('d' :: 'i' :: 's' :: 't' :: 'i' :: 'n' :: 'c' :: 't' :: ' ' :: a) = a
  rw [stripDistinctGo]
  rw [show distinctWsAt ('d' :: 'i' :: 's' :: 't' :: 'i' :: 'n' :: 'c' :: 't' :: ' ' :: a) = true from rfl]
  simp only [if_true]
  show stripDistinctGo (a.length + 8) ((' ' :: a).dropWhile Char.isWhitespace) = a
  rw [show ((' ' :: a).dropWhile Char.isWhitespace) = a.dropWhile Char.isWhitespace from by
    simp [List.dropWhile_cons]]
  rw [dropWhile_eq_self_of_head (fun x hx => h x (List.mem_of_mem_head? hx))]
  exact stripDistinctGo_of_no_ws _ h

/- ## Toolbox: aggregate-shape parsing -/

theorem matchAgg_shape {fn mid : List Char}
    (hfn : fn ≠ []) (hw : ∀ x ∈ fn, isWordChar x = true) (hnl : '\n' ∉ mid) :
    matchAgg (fn ++ '(' :: (mid ++ [')'])) = some (fn, mid) := by
  have ht : (fn ++ '(' :: (mid ++ [')'])).takeWhile isWordChar = fn := by
    rw [takeWhile_append_of_all hw, List.takeWhile_cons]
    rw [show isWordChar '(' = false from by decide]
    simp
  unfold matchAgg
  rw [ht]
  rw [List.drop_left fn ('(' :: (mid ++ [')']))]
  rw [show fn.isEmpty = false from List.isEmpty_eq_false.2 hfn]
  simp only [Bool.false_eq_true, if_false]
  have htw : (mid ++ [')']).takeWhile (fun c => c != '\n') = mid ++ [')'] := by
    refine takeWhile_eq_self_of_all (fun x hx => ?_)
    rcases List.mem_append.1 hx with h1 | h1
    · simp only [bne_iff_ne]
      intro e
      exact hnl (e ▸ h1)
    · have : x = ')' := by simpa using h1
      subst this
      decide
  rw [htw]
  rw [List.reverse_append]
  simp only [List.reverse_cons, List.reverse_nil, List.nil_append, List.singleton_append]
  rw [show (')' :: mid.reverse : List Char).dropWhile (fun c => c != ')') = ')' :: mid.reverse from by
    simp [List.dropWhile_cons]]
  simp [List.reverse_reverse]

theorem isAggregateFn_sum_shape (rest : List Char) :
    isAggregateFn ('s' :: 'u' :: 'm' :: '(' :: rest) = true := rfl

theorem isAggregateFn_count_shape (rest : List Char) :
    isAggregateFn ('c' :: 'o' :: 'u' :: 'n' :: 't' :: '(' :: rest) = true := rfl

theorem isAggregateFn_avg_shape (rest : List Char) :
    isAggregateFn ('a' :: 'v' :: 'g' :: '(' :: rest) = true := rfl

theorem isAggregateFn_min_shape (rest : List Char) :
    isAggregateFn ('m' :: 'i' :: 'n' :: '(' :: rest) = true := rfl

theorem isAggregateFn_max_shape (rest : List Char) :
    isAggregateFn ('m' :: 'a' :: 'x' :: '(' :: rest) = true := rfl

theorem containsDistinct_leading (a : List Char) :
    containsDistinct ('d' :: 'i' :: 's' :: 't' :: 'i' :: 'n' :: 'c' :: 't' :: a) = true := rfl

/- ## Toolbox: routing through `parse_and_execute` -/

theorem parseAndExecute_agg {df : DataFrame} {F : String} {l : List Char}
    (hd : F.data = l) (ht : trim l = l) (ha : isAggregateFn l = true) :
    parseAndExecute df F = executeAggregate df l := by
  unfold parseAndExecute
  rw [hd, ht, ha]
  simp [ht]

theorem parseAndExecute_div {df : DataFrame} {F : String}
    (ha : isAggregateFn (trim F.data) = false)
    (hs : (trim F.data).contains '/' = true) :
    parseAndExecute df F = executeDivision df (trim F.data) := by
  unfold parseAndExecute
  rw [ha, hs]
  simp

/- ## Toolbox: column arithmetic -/

theorem cellNums_map_num (q : List ℚ) : cellNums (q.map Cell.num) = q := by
  induction q with
  | nil => rfl
  | cons a t ih => simp [cellNums, ih]

theorem zipWith_cellMul_num (q1 : List ℚ) : ∀ q2 : List ℚ,
    List.zipWith Cell.mul (q1.map Cell.num) (q2.map Cell.num)
      = (List.zipWith (fun a b => a * b) q1 q2).map Cell.num := by
  induction q1 with
  | nil => intro q2; rfl
  | cons a t ih =>
    intro q2
    cases q2 with
    | nil => rfl
    | cons b u => simp [Cell.mul, ih u]

theorem colSum_map_num (q : List ℚ) : colSum (q.map Cell.num) = q.sum := by
  rw [colSum, cellNums_map_num]

theorem colCount_map_num (q : List ℚ) : colCount (q.map Cell.num) = q.length := by
  induction q with
  | nil => rfl
  | cons a t ih =>
    show 1 + colCount (t.map Cell.num) = t.length + 1
    rw [ih, Nat.add_comm]

theorem colMean_map_num (q : List ℚ) :
    colMean (q.map Cell.num) = q.sum / (q.length : ℚ) := by
  rw [colMean, cellNums_map_num]

theorem foldl_min_le_seed (x : ℚ) (xs : List ℚ) : xs.foldl min x ≤ x := by
  induction xs generalizing x with
  | nil => simp
  | cons y ys ih =>
    calc (y :: ys).foldl min x = ys.foldl min (min x y) := rfl
      _ ≤ min x y := ih _
      _ ≤ x := min_le_left _ _

theorem foldl_min_le_mem {a : ℚ} {xs : List ℚ} (x : ℚ) (h : a ∈ xs) : xs.foldl min x ≤ a := by
  induction xs generalizing x with
  | nil => exact absurd h (by simp)
  | cons y ys ih =>
    rcases List.mem_cons.1 h with rfl | h2
    · calc (a :: ys).foldl min x = ys.foldl min (min x a) := rfl
        _ ≤ min x a := foldl_min_le_seed _ _
        _ ≤ a := min_le_right _ _
    · exact ih (min x y) h2

theorem le_foldl_max_seed (x : ℚ) (xs : List ℚ) : x ≤ xs.foldl max x := by
  induction xs generalizing x with
  | nil => simp
  | cons y ys ih =>
    calc x ≤ max x y := le_max_left _ _
      _ ≤ ys.foldl max (max x y) := ih _
      _ = (y :: ys).foldl max x := rfl

theorem le_foldl_max_mem {a : ℚ} {xs : List ℚ} (x : ℚ) (h : a ∈ xs) : a ≤ xs.foldl max x := by
  induction xs generalizing x with
  | nil => exact absurd h (by simp)
  | cons y ys ih =>
    rcases List.mem_cons.1 h with rfl | h2
    · calc a ≤ max x a := le_max_right _ _
        _ ≤ ys.foldl max (max x a) := le_foldl_max_seed _ _
        _ = (a :: ys).foldl max x := rfl
    · exact ih (max x y) h2

theorem colMin_le_mem {q : List ℚ} {a : ℚ} (h : a ∈ q) : colMin (q.map Cell.num) ≤ a := by
  unfold colMin
  rw [cellNums_map_num]
  cases q with
  | nil => exact absurd h (by simp)
  | cons x xs =>
    rcases List.mem_cons.1 h with rfl | h2
    · exact foldl_min_le_seed _ _
    · exact foldl_min_le_mem _ h2

theorem le_colMax_mem {q : List ℚ} {a : ℚ} (h : a ∈ q) : a ≤ colMax (q.map Cell.num) := by
  unfold colMax
  rw [cellNums_map_num]
  cases q with
  | nil => exact absurd h (by simp)
  | cons x xs =>
    rcases List.mem_cons.1 h with rfl | h2
    · exact le_foldl_max_seed _ _
    · exact le_foldl_max_mem _ h2

theorem colMin_le_colMean {q : List ℚ} (hne : q ≠ []) :
    colMin (q.map Cell.num) ≤ colMean (q.map Cell.num) := by
  rw [colMean_map_num]
  have hlen : (0 : ℚ) < (q.length : ℚ) := by
    have : 0 < q.length := List.length_pos.2 hne
    exact_mod_cast this
  rw [le_div_iff₀ hlen]
  have hb : ∀ y ∈ q, colMin (q.map Cell.num) ≤ y := fun y hy => colMin_le_mem hy
  have hs := List.card_nsmul_le_sum q (colMin (q.map Cell.num)) hb
  rw [nsmul_eq_mul] at hs
  calc colMin (q.map Cell.num) * (q.length : ℚ)
      = (q.length : ℚ) * colMin (q.map Cell.num) := mul_comm _ _
    _ ≤ q.sum := hs

theorem colMean_le_colMax {q : List ℚ} (hne : q ≠ []) :
    colMean (q.map Cell.num) ≤ colMax (q.map Cell.num) := by
  rw [colMean_map_num]
  have hlen : (0 : ℚ) < (q.length : ℚ) := by
    have : 0 < q.length := List.length_pos.2 hne
    exact_mod_cast this
  rw [div_le_iff₀ hlen]
  have hb : ∀ y ∈ q, y ≤ colMax (q.map Cell.num) := fun y hy => le_colMax_mem hy
  have hs := List.sum_le_card_nsmul q (colMax (q.map Cell.num)) hb
  rw [nsmul_eq_mul] at hs
  calc q.sum ≤ (q.length : ℚ) * colMax (q.map Cell.num) := hs
    _ = colMax (q.map Cell.num) * (q.length : ℚ) := mul_comm _ _

/- ## Toolbox: trimming the concrete formula shapes -/

theorem trim_agg_shape {fn mid : List Char} (hfn : fn ≠ [])
    (hw : ∀ x ∈ fn, isWordChar x = true) :
    trim (fn ++ '(' :: (mid ++ [')'])) = fn ++ '(' :: (mid ++ [')']) := by
  refine trim_eq_self_of_ends (fun x hx => ?_) (fun x hx => ?_)
  · obtain ⟨c, t, rfl⟩ := List.exists_cons_of_ne_nil hfn
    have he : c = x := by simpa using hx
    subst he
    exact wordChar_not_ws (hw c (by simp))
  · rw [show fn ++ '(' :: (mid ++ [')']) = (fn ++ '(' :: mid) ++ [')'] from by simp] at hx
    rw [List.getLast?_concat] at hx
    have he : ')' = x := by simpa using hx
    subst he
    decide

theorem trim_between_idents {a m b : List Char}
    (ha : isIdent a = true) (hb : isIdent b = true) :
    trim (a ++ (m ++ b)) = a ++ (m ++ b) := by
  refine trim_eq_self_of_ends (fun x hx => ?_) (fun x hx => ?_)
  · obtain ⟨c, t, rfl⟩ := List.exists_cons_of_ne_nil (isIdent_ne_nil ha)
    have he : c = x := by simpa using hx
    subst he
    exact wordChar_not_ws (isIdent_word ha c (by simp))
  · rcases List.eq_nil_or_concat b with rfl | ⟨L, y, rfl⟩
    · exact absurd rfl (isIdent_ne_nil hb)
    · rw [List.concat_eq_append] at hb hx
      rw [show a ++ (m ++ (L ++ [y])) = (a ++ (m ++ L)) ++ [y] from by simp] at hx
      rw [List.getLast?_concat] at hx
      have he : y = x := by simpa using hx
      subst he
      exact isIdent_no_ws hb y (by simp)

theorem trim_ident {a : List Char} (ha : isIdent a = true) : trim a = a :=
  trim_eq_self_of_all (isIdent_no_ws ha)

theorem trim_ident_right_pad {a : List Char} (ha : isIdent a = true) :
    trim (a ++ [' ']) = a := by
  have h := trim_sandwich (u := []) (a := a) (v := [' ']) (by simp)
    (by
      intro x hx
      have he : x = ' ' := by simpa using hx
      subst he
      decide)
    (isIdent_no_ws ha) (isIdent_ne_nil ha)
  rw [List.nil_append] at h
  exact h

theorem trim_ident_left_pad {a : List Char} (ha : isIdent a = true) :
    trim (' ' :: a) = a := by
  have h := trim_sandwich (u := [' ']) (a := a) (v := []) (by
      intro x hx
      have he : x = ' ' := by simpa using hx
      subst he
      decide)
    (by simp)
    (isIdent_no_ws ha) (isIdent_ne_nil ha)
  rw [List.append_nil] at h
  exact h

theorem splitChar_star_mid {c1 c2 : List Char} (h1 : isIdent c1 = true)
    (h2 : isIdent c2 = true) :
    (splitChar '*' (c1 ++ ' ' :: '*' :: ' ' :: c2)).map trim = [c1, c2] := by
  rw [show c1 ++ ' ' :: '*' :: ' ' :: c2 = (c1 ++ [' ']) ++ '*' :: (' ' :: c2) from by simp]
  rw [splitChar_append_sep (by
    intro hm
    rcases List.mem_append.1 hm with h | h
    · exact isIdent_not_mem h1 (by decide) h
    · simp only [List.mem_singleton] at h
      exact absurd h (by decide))]
  rw [splitChar_of_not_mem (by
    intro hm
    rcases List.mem_cons.1 hm with h | h
    · exact absurd h (by decide)
    · exact isIdent_not_mem h2 (by decide) h)]
  simp only [List.map_cons, List.map_nil]
  rw [trim_ident_right_pad h1, trim_ident_left_pad h2]

theorem contains_star_mid (c1 c2 : List Char) :
    (c1 ++ ' ' :: '*' :: ' ' :: c2).contains '*' = true :=
  contains_eq_true_of_mem (by simp)

theorem newline_not_mem_mid {c1 c2 : List Char} (h1 : isIdent c1 = true)
    (h2 : isIdent c2 = true) :
    '\n' ∉ c1 ++ ' ' :: '*' :: ' ' :: c2 := by
  intro hm
  rcases List.mem_append.1 hm with h | h
  · exact isIdent_not_mem h1 (by decide) h
  · simp only [List.mem_cons] at h
    rcases h with h | h | h | h
    · exact absurd h (by decide)
    · exact absurd h (by decide)
    · exact absurd h (by decide)
    · exact isIdent_not_mem h2 (by decide) h

/-- Unfolding of `_execute_aggregate` on a recognised `fn(args)` shape. -/
theorem executeAggregate_shape {df : DataFrame} {fn mid : List Char}
    (hfn : fn ≠ []) (hw : ∀ x ∈ fn, isWordChar x = true) (hnl : '\n' ∉ mid) :
    executeAggregate df (fn ++ '(' :: (mid ++ [')']))
      = if ALLOWED_FUNCTIONS.contains (String.mk (fn.map Char.toLower)) then
          if containsDistinct (trim mid) then executeDistinctCount df (trim mid)
          else if String.mk (fn.map Char.toLower) == "sum" then
            executeSum df (trim mid)
          else if String.mk (fn.map Char.toLower) == "count"
              || String.mk (fn.map Char.toLower) == "nunique" then
            executeCount df (trim mid)
          else if String.mk (fn.map Char.toLower) == "avg"
              || String.mk (fn.map Char.toLower) == "mean" then
            executeAvg df (trim mid)
          else if String.mk (fn.map Char.toLower) == "min" then
            executeMin df (trim mid)
          else if String.mk (fn.map Char.toLower) == "max" then
            executeMax df (trim mid)
          else Except.error (EvalError.unsupportedFunction (String.mk (fn.map Char.toLower)))
        else Except.error
          (EvalError.functionNotAllowed (String.mk (fn.map Char.toLower)) ALLOWED_FUNCTIONS) := by
  unfold executeAggregate
  rw [matchAgg_shape hfn hw hnl]

/- ## Claim C1 -/

/-- Claim C1: for every dataset `df` and columns `c1`, `c2` present in `df`
(plain identifiers, numeric columns, argument text without the letters
`distinct`), evaluating `sum(c1 * c2)` returns the sum over all rows of the
element-wise product of the two columns. -/
theorem C1_sum_of_products (df : DataFrame) (c1 c2 : String) (q1 q2 : List ℚ)
    (hid1 : isIdent c1.data = true) (hid2 : isIdent c2.data = true)
    (hnd : containsDistinct (c1.data ++ ' ' :: '*' :: ' ' :: c2.data) = false)
    (hc1 : df.hasCol c1 = true) (hc2 : df.hasCol c2 = true)
    (hq1 : df.get c1 = q1.map Cell.num) (hq2 : df.get c2 = q2.map Cell.num) :
    parseAndExecute df ("sum(" ++ c1 ++ " * " ++ c2 ++ ")")
      = Except.ok ((List.zipWith (fun a b => a * b) q1 q2).sum) := by
  have hF : ("sum(" ++ c1 ++ " * " ++ c2 ++ ")").data
      = ['s', 'u', 'm'] ++ '(' :: ((c1.data ++ ' ' :: '*' :: ' ' :: c2.data) ++ [')']) := by
    simp [String.data_append, List.append_assoc]
  have hmid : trim (c1.data ++ ' ' :: '*' :: ' ' :: c2.data)
      = c1.data ++ ' ' :: '*' :: ' ' :: c2.data := by
    have h := trim_between_idents (m := [' ', '*', ' ']) hid1 hid2
    simp only [List.cons_append, List.nil_append] at h
    exact h
  rw [parseAndExecute_agg hF (trim_agg_shape (by simp) (by decide))
    (isAggregateFn_sum_shape _)]
  rw [executeAggregate_shape (by simp) (by decide) (newline_not_mem_mid hid1 hid2)]
  rw [show String.mk ((['s', 'u', 'm'] : List Char).map Char.toLower) = "sum" from by decide]
  rw [if_pos (show ALLOWED_FUNCTIONS.contains "sum" = true from by decide)]
  rw [hmid]
  rw [if_neg (by simp [hnd])]
  rw [if_pos (show (("sum" : String) == "sum") = true from by decide)]
  unfold executeSum
  rw [if_pos (contains_star_mid c1.data c2.data)]
  rw [splitChar_star_mid hid1 hid2]
  show (if df.hasCol c1 && df.hasCol c2 then
      Except.ok (colSum (List.zipWith Cell.mul (df.get c1) (df.get c2)))
    else Except.error (EvalError.columnNotFound [c1, c2]))
    = Except.ok ((List.zipWith (fun a b => a * b) q1 q2).sum)
  rw [hc1, hc2]
  rw [if_pos (show (true && true) = true from rfl)]
  rw [hq1, hq2, zipWith_cellMul_num, colSum_map_num]

/-- Witness for C1: on the concrete scenario dataset,
`sum(Quantity * UnitPrice)` evaluates to 110. -/
theorem C1_sum_of_products_witness :
    parseAndExecute scenarioDF ("sum(Quantity * UnitPrice)") = Except.ok 110 := by
  have h := C1_sum_of_products scenarioDF "Quantity" "UnitPrice" [2, 3, 1, 5] [10, 15, 20, 5]
    (by decide) (by decide) (by decide) (by decide) (by decide)
    (by with_unfolding_all decide) (by with_unfolding_all decide)
  have hs : ("sum(Quantity * UnitPrice)" : String)
      = "sum(" ++ "Quantity" ++ " * " ++ "UnitPrice" ++ ")" := by decide
  rw [hs, h]
  with_unfolding_all decide

/- ## Toolbox: routing a single-identifier aggregate to its executor -/

theorem parse_sum_ident {df : DataFrame} {c : String} (hid : isIdent c.data = true) :
    parseAndExecute df ("sum(" ++ c ++ ")")
      = if containsDistinct c.data then executeDistinctCount df c.data
        else executeSum df c.data := by
  have hF : ("sum(" ++ c ++ ")").data = ['s', 'u', 'm'] ++ '(' :: (c.data ++ [')']) := by
    simp [String.data_append, List.append_assoc]
  rw [parseAndExecute_agg hF (trim_agg_shape (by simp) (by decide))
    (isAggregateFn_sum_shape _)]
  rw [executeAggregate_shape (by simp) (by decide) (isIdent_not_mem hid (by decide))]
  rw [show String.mk ((['s', 'u', 'm'] : List Char).map Char.toLower) = "sum" from by decide]
  rw [if_pos (show ALLOWED_FUNCTIONS.contains "sum" = true from by decide)]
  rw [trim_ident hid]
  by_cases hd : containsDistinct c.data = true
  · rw [if_pos hd, if_pos hd]
  · rw [if_neg hd, if_neg hd]
    rw [if_pos (show (("sum" : String) == "sum") = true from by decide)]

theorem parse_count_ident {df : DataFrame} {c : String} (hid : isIdent c.data = true) :
    parseAndExecute df ("count(" ++ c ++ ")")
      = if containsDistinct c.data then executeDistinctCount df c.data
        else executeCount df c.data := by
  have hF : ("count(" ++ c ++ ")").data
      = ['c', 'o', 'u', 'n', 't'] ++ '(' :: (c.data ++ [')']) := by
    simp [String.data_append, List.append_assoc]
  rw [parseAndExecute_agg hF (trim_agg_shape (by simp) (by decide))
    (isAggregateFn_count_shape _)]
  rw [executeAggregate_shape (by simp) (by decide) (isIdent_not_mem hid (by decide))]
  rw [show String.mk ((['c', 'o', 'u', 'n', 't'] : List Char).map Char.toLower) = "count" from by
    decide]
  rw [if_pos (show ALLOWED_FUNCTIONS.contains "count" = true from by decide)]
  rw [trim_ident hid]
  by_cases hd : containsDistinct c.data = true
  · rw [if_pos hd, if_pos hd]
  · rw [if_neg hd, if_neg hd]
    rw [if_neg (show ¬(("count" : String) == "sum") = true from by decide)]
    rw [if_pos (show ((("count" : String) == "count")
      || (("count" : String) == "nunique")) = true from by decide)]

theorem parse_avg_ident {df : DataFrame} {c : String} (hid : isIdent c.data = true) :
    parseAndExecute df ("avg(" ++ c ++ ")")
      = if containsDistinct c.data then executeDistinctCount df c.data
        else executeAvg df c.data := by
  have hF : ("avg(" ++ c ++ ")").data = ['a', 'v', 'g'] ++ '(' :: (c.data ++ [')']) := by
    simp [String.data_append, List.append_assoc]
  rw [parseAndExecute_agg hF (trim_agg_shape (by simp) (by decide))
    (isAggregateFn_avg_shape _)]
  rw [executeAggregate_shape (by simp) (by decide) (isIdent_not_mem hid (by decide))]
  rw [show String.mk ((['a', 'v', 'g'] : List Char).map Char.toLower) = "avg" from by decide]
  rw [if_pos (show ALLOWED_FUNCTIONS.contains "avg" = true from by decide)]
  rw [trim_ident hid]
  by_cases hd : containsDistinct c.data = true
  · rw [if_pos hd, if_pos hd]
  · rw [if_neg hd, if_neg hd]
    rw [if_neg (show ¬(("avg" : String) == "sum") = true from by decide)]
    rw [if_neg (show ¬((("avg" : String) == "count")
      || (("avg" : String) == "nunique")) = true from by decide)]
    rw [if_pos (show ((("avg" : String) == "avg")
      || (("avg" : String) == "mean")) = true from by decide)]

theorem parse_min_ident {df : DataFrame} {c : String} (hid : isIdent c.data = true) :
    parseAndExecute df ("min(" ++ c ++ ")")
      = if containsDistinct c.data then executeDistinctCount df c.data
        else executeMin df c.data := by
  have hF : ("min(" ++ c ++ ")").data = ['m', 'i', 'n'] ++ '(' :: (c.data ++ [')']) := by
    simp [String.data_append, List.append_assoc]
  rw [parseAndExecute_agg hF (trim_agg_shape (by simp) (by decide))
    (isAggregateFn_min_shape _)]
  rw [executeAggregate_shape (by simp) (by decide) (isIdent_not_mem hid (by decide))]
  rw [show String.mk ((['m', 'i', 'n'] : List Char).map Char.toLower) = "min" from by decide]
  rw [if_pos (show ALLOWED_FUNCTIONS.contains "min" = true from by decide)]
  rw [trim_ident hid]
  by_cases hd : containsDistinct c.data = true
  · rw [if_pos hd, if_pos hd]
  · rw [if_neg hd, if_neg hd]
    rw [if_neg (show ¬(("min" : String) == "sum") = true from by decide)]
    rw [if_neg (show ¬((("min" : String) == "count")
      || (("min" : String) == "nunique")) = true from by decide)]
    rw [if_neg (show ¬((("min" : String) == "avg")
      || (("min" : String) == "mean")) = true from by decide)]
    rw [if_pos (show (("min" : String) == "min") = true from by decide)]

theorem parse_max_ident {df : DataFrame} {c : String} (hid : isIdent c.data = true) :
    parseAndExecute df ("max(" ++ c ++ ")")
      = if containsDistinct c.data then executeDistinctCount df c.data
        else executeMax df c.data := by
  have hF : ("max(" ++ c ++ ")").data = ['m', 'a', 'x'] ++ '(' :: (c.data ++ [')']) := by
    simp [String.data_append, List.append_assoc]
  rw [parseAndExecute_agg hF (trim_agg_shape (by simp) (by decide))
    (isAggregateFn_max_shape _)]
  rw [executeAggregate_shape (by simp) (by decide) (isIdent_not_mem hid (by decide))]
  rw [show String.mk ((['m', 'a', 'x'] : List Char).map Char.toLower) = "max" from by decide]
  rw [if_pos (show ALLOWED_FUNCTIONS.contains "max" = true from by decide)]
  rw [trim_ident hid]
  by_cases hd : containsDistinct c.data = true
  · rw [if_pos hd, if_pos hd]
  · rw [if_neg hd, if_neg hd]
    rw [if_neg (show ¬(("max" : String) == "sum") = true from by decide)]
    rw [if_neg (show ¬((("max" : String) == "count")
      || (("max" : String) == "nunique")) = true from by decide)]
    rw [if_neg (show ¬((("max" : String) == "avg")
      || (("max" : String) == "mean")) = true from by decide)]
    rw [if_neg (show ¬(("max" : String) == "min") = true from by decide)]
    rw [if_pos (show (("max" : String) == "max") = true from by decide)]

/- ## Claim C7 -/

/-- Claim C7: for every dataset `df` and numeric columns `c1`, `c2` present
in `df` (same length, nonempty, argument text without the letters
`distinct`), evaluating `avg(c1 * c2)` returns the sum over rows of the
element-wise product divided by the row count. -/
theorem C7_avg_of_products (df : DataFrame) (c1 c2 : String) (q1 q2 : List ℚ)
    (hid1 : isIdent c1.data = true) (hid2 : isIdent c2.data = true)
    (hnd : containsDistinct (c1.data ++ ' ' :: '*' :: ' ' :: c2.data) = false)
    (hc1 : df.hasCol c1 = true) (hc2 : df.hasCol c2 = true)
    (hq1 : df.get c1 = q1.map Cell.num) (hq2 : df.get c2 = q2.map Cell.num)
    (hlen : q1.length = q2.length) (_hne : q1 ≠ []) :
    parseAndExecute df ("avg(" ++ c1 ++ " * " ++ c2 ++ ")")
      = Except.ok ((List.zipWith (fun a b => a * b) q1 q2).sum / (q1.length : ℚ)) := by
  have hF : ("avg(" ++ c1 ++ " * " ++ c2 ++ ")").data
      = ['a', 'v', 'g'] ++ '(' :: ((c1.data ++ ' ' :: '*' :: ' ' :: c2.data) ++ [')']) := by
    simp [String.data_append, List.append_assoc]
  have hmid : trim (c1.data ++ ' ' :: '*' :: ' ' :: c2.data)
      = c1.data ++ ' ' :: '*' :: ' ' :: c2.data := by
    have h := trim_between_idents (m := [' ', '*', ' ']) hid1 hid2
    simp only [List.cons_append, List.nil_append] at h
    exact h
  rw [parseAndExecute_agg hF (trim_agg_shape (by simp) (by decide))
    (isAggregateFn_avg_shape _)]
  rw [executeAggregate_shape (by simp) (by decide) (newline_not_mem_mid hid1 hid2)]
  rw [show String.mk ((['a', 'v', 'g'] : List Char).map Char.toLower) = "avg" from by decide]
  rw [if_pos (show ALLOWED_FUNCTIONS.contains "avg" = true from by decide)]
  rw [hmid]
  rw [if_neg (by simp [hnd])]
  rw [if_neg (show ¬(("avg" : String) == "sum") = true from by decide)]
  rw [if_neg (show ¬((("avg" : String) == "count")
    || (("avg" : String) == "nunique")) = true from by decide)]
  rw [if_pos (show ((("avg" : String) == "avg")
    || (("avg" : String) == "mean")) = true from by decide)]
  unfold executeAvg
  rw [if_pos (contains_star_mid c1.data c2.data)]
  rw [splitChar_star_mid hid1 hid2]
  show (if df.hasCol c1 && df.hasCol c2 then
      Except.ok (colMean (List.zipWith Cell.mul (df.get c1) (df.get c2)))
    else Except.error (EvalError.columnNotFound [c1, c2]))
    = Except.ok ((List.zipWith (fun a b => a * b) q1 q2).sum / (q1.length : ℚ))
  rw [hc1, hc2]
  rw [if_pos (show (true && true) = true from rfl)]
  rw [hq1, hq2, zipWith_cellMul_num, colMean_map_num]
  rw [show (List.zipWith (fun a b => a * b) q1 q2).length = q1.length from by
    rw [List.length_zipWith, ← hlen, min_self]]

/-- Witness for C7: on the scenario dataset, `avg(Quantity * UnitPrice)`
evaluates to 110 / 4 = 27.5. -/
theorem C7_avg_of_products_witness :
    parseAndExecute scenarioDF ("avg(Quantity * UnitPrice)") = Except.ok (55 / 2) := by
  have h := C7_avg_of_products scenarioDF "Quantity" "UnitPrice" [2, 3, 1, 5] [10, 15, 20, 5]
    (by decide) (by decide) (by decide) (by decide) (by decide)
    (by with_unfolding_all decide) (by with_unfolding_all decide) (by decide) (by decide)
  have hs : ("avg(Quantity * UnitPrice)" : String)
      = "avg(" ++ "Quantity" ++ " * " ++ "UnitPrice" ++ ")" := by decide
  rw [hs, h]
  with_unfolding_all decide

/- ## Claim C2 -/

theorem newline_not_mem_distinct_mid {c : List Char} (hid : isIdent c = true) :
    '\n' ∉ ('d' :: 'i' :: 's' :: 't' :: 'i' :: 'n' :: 'c' :: 't' :: ' ' :: c) := by
  intro hm
  simp only [List.mem_cons] at hm
  rcases hm with h | h | h | h | h | h | h | h | h | h
  all_goals first
    | exact absurd h (by decide)
    | exact isIdent_not_mem hid (by decide) h

theorem trim_distinct_mid {c : List Char} (hid : isIdent c = true) :
    trim ('d' :: 'i' :: 's' :: 't' :: 'i' :: 'n' :: 'c' :: 't' :: ' ' :: c)
      = 'd' :: 'i' :: 's' :: 't' :: 'i' :: 'n' :: 'c' :: 't' :: ' ' :: c := by
  have h := trim_between_idents (a := ['d', 'i', 's', 't', 'i', 'n', 'c', 't'])
    (m := [' ']) (b := c) (by decide) hid
  simp only [List.cons_append, List.nil_append] at h
  exact h

/-- The distinct-count executor on the argument text `distinct c` for a plain
identifier `c` present in the dataset: the `distinct ` token is stripped and
the unique-value count of column `c` is returned. -/
theorem executeDistinctCount_distinct_space {df : DataFrame} {c : String}
    (hid : isIdent c.data = true) (hc : df.hasCol c = true) :
    executeDistinctCount df
        ('d' :: 'i' :: 's' :: 't' :: 'i' :: 'n' :: 'c' :: 't' :: ' ' :: c.data)
      = Except.ok ((colNunique (df.get c) : ℚ)) := by
  unfold executeDistinctCount
  rw [stripDistinct_leading (isIdent_no_ws hid), trim_ident hid]
  rw [show String.mk c.data = c from rfl]
  rw [hc]
  simp

/-- Claim C2: `count(distinct c)`, `sum(distinct c)` and `avg(distinct c)`
all return the same value — the number of unique non-null values of column
`c` — because the distinct-detection rule is applied before dispatching on
the function name. -/
theorem C2_distinct_overrides (df : DataFrame) (c : String)
    (hid : isIdent c.data = true) (hc : df.hasCol c = true) :
    parseAndExecute df ("count(distinct " ++ c ++ ")")
        = Except.ok ((colNunique (df.get c) : ℚ)) ∧
    parseAndExecute df ("sum(distinct " ++ c ++ ")")
        = Except.ok ((colNunique (df.get c) : ℚ)) ∧
    parseAndExecute df ("avg(distinct " ++ c ++ ")")
        = Except.ok ((colNunique (df.get c) : ℚ)) := by
  refine ⟨?_, ?_, ?_⟩
  · have hF : ("count(distinct " ++ c ++ ")").data
        = ['c', 'o', 'u', 'n', 't'] ++ '(' ::
          (('d' :: 'i' :: 's' :: 't' :: 'i' :: 'n' :: 'c' :: 't' :: ' ' :: c.data) ++ [')']) := by
      simp [String.data_append, List.append_assoc]
    rw [parseAndExecute_agg hF (trim_agg_shape (by simp) (by decide))
      (isAggregateFn_count_shape _)]
    rw [executeAggregate_shape (by simp) (by decide) (newline_not_mem_distinct_mid hid)]
    rw [show String.mk ((['c', 'o', 'u', 'n', 't'] : List Char).map Char.toLower) = "count" from by
      decide]
    rw [if_pos (show ALLOWED_FUNCTIONS.contains "count" = true from by decide)]
    rw [trim_distinct_mid hid]
    rw [if_pos (containsDistinct_leading _)]
    exact executeDistinctCount_distinct_space hid hc
  · have hF : ("sum(distinct " ++ c ++ ")").data
        = ['s', 'u', 'm'] ++ '(' ::
          (('d' :: 'i' :: 's' :: 't' :: 'i' :: 'n' :: 'c' :: 't' :: ' ' :: c.data) ++ [')']) := by
      simp [String.data_append, List.append_assoc]
    rw [parseAndExecute_agg hF (trim_agg_shape (by simp) (by decide))
      (isAggregateFn_sum_shape _)]
    rw [executeAggregate_shape (by simp) (by decide) (newline_not_mem_distinct_mid hid)]
    rw [show String.mk ((['s', 'u', 'm'] : List Char).map Char.toLower) = "sum" from by decide]
    rw [if_pos (show ALLOWED_FUNCTIONS.contains "sum" = true from by decide)]
    rw [trim_distinct_mid hid]
    rw [if_pos (containsDistinct_leading _)]
    exact executeDistinctCount_distinct_space hid hc
  · have hF : ("avg(distinct " ++ c ++ ")").data
        = ['a', 'v', 'g'] ++ '(' ::
          (('d' :: 'i' :: 's' :: 't' :: 'i' :: 'n' :: 'c' :: 't' :: ' ' :: c.data) ++ [')']) := by
      simp [String.data_append, List.append_assoc]
    rw [parseAndExecute_agg hF (trim_agg_shape (by simp) (by decide))
      (isAggregateFn_avg_shape _)]
    rw [executeAggregate_shape (by simp) (by decide) (newline_not_mem_distinct_mid hid)]
    rw [show String.mk ((['a', 'v', 'g'] : List Char).map Char.toLower) = "avg" from by decide]
    rw [if_pos (show ALLOWED_FUNCTIONS.contains "avg" = true from by decide)]
    rw [trim_distinct_mid hid]
    rw [if_pos (containsDistinct_leading _)]
    exact executeDistinctCount_distinct_space hid hc

/-- Witness for C2: on the scenario dataset all three spellings return 3,
the number of unique invoice numbers. -/
theorem C2_distinct_overrides_witness :
    parseAndExecute scenarioDF ("count(distinct InvoiceNo)") = Except.ok 3 ∧
    parseAndExecute scenarioDF ("sum(distinct InvoiceNo)") = Except.ok 3 ∧
    parseAndExecute scenarioDF ("avg(distinct InvoiceNo)") = Except.ok 3 := by
  obtain ⟨h1, h2, h3⟩ := C2_distinct_overrides scenarioDF "InvoiceNo" (by decide) (by decide)
  refine ⟨?_, ?_, ?_⟩
  · rw [show ("count(distinct InvoiceNo)" : String)
      = "count(distinct " ++ "InvoiceNo" ++ ")" from by decide, h1]
    with_unfolding_all decide
  · rw [show ("sum(distinct InvoiceNo)" : String)
      = "sum(distinct " ++ "InvoiceNo" ++ ")" from by decide, h2]
    with_unfolding_all decide
  · rw [show ("avg(distinct InvoiceNo)" : String)
      = "avg(distinct " ++ "InvoiceNo" ++ ")" from by decide, h3]
    with_unfolding_all decide

/- ## Claim C9 -/

/-- Claim C9: for every dataset and numeric, nonempty column `c` present in
it (a plain identifier whose letters do not spell `distinct`), the evaluated
results satisfy `min(c) ≤ avg(c) ≤ max(c)`. -/
theorem C9_min_avg_max (df : DataFrame) (c : String) (q : List ℚ)
    (hid : isIdent c.data = true) (hnd : containsDistinct c.data = false)
    (hc : df.hasCol c = true) (hq : df.get c = q.map Cell.num) (hne : q ≠ []) :
    parseAndExecute df ("min(" ++ c ++ ")") = Except.ok (colMin (df.get c)) ∧
    parseAndExecute df ("avg(" ++ c ++ ")") = Except.ok (colMean (df.get c)) ∧
    parseAndExecute df ("max(" ++ c ++ ")") = Except.ok (colMax (df.get c)) ∧
    colMin (df.get c) ≤ colMean (df.get c) ∧
    colMean (df.get c) ≤ colMax (df.get c) := by
  refine ⟨?_, ?_, ?_, ?_, ?_⟩
  · rw [parse_min_ident hid, if_neg (by simp [hnd])]
    unfold executeMin
    rw [trim_ident hid]
    rw [show String.mk c.data = c from rfl]
    rw [hc]
    simp
  · rw [parse_avg_ident hid, if_neg (by simp [hnd])]
    unfold executeAvg
    rw [show c.data.contains '*' = false from
      contains_eq_false_of_not_mem (isIdent_not_mem hid (by decide))]
    simp only [Bool.false_eq_true, if_false]
    rw [trim_ident hid]
    rw [show String.mk c.data = c from rfl]
    rw [hc]
    simp
  · rw [parse_max_ident hid, if_neg (by simp [hnd])]
    unfold executeMax
    rw [trim_ident hid]
    rw [show String.mk c.data = c from rfl]
    rw [hc]
    simp
  · rw [hq]
    exact colMin_le_colMean hne
  · rw [hq]
    exact colMean_le_colMax hne

/-- Witness for C9: on the scenario dataset, `min(UnitPrice)` is 5,
`avg(UnitPrice)` is 12.5, `max(UnitPrice)` is 20, and 5 ≤ 12.5 ≤ 20. -/
theorem C9_min_avg_max_witness :
    parseAndExecute scenarioDF ("min(UnitPrice)") = Except.ok 5 ∧
    parseAndExecute scenarioDF ("avg(UnitPrice)") = Except.ok (25 / 2) ∧
    parseAndExecute scenarioDF ("max(UnitPrice)") = Except.ok 20 ∧
    ((5 : ℚ) ≤ 25 / 2 ∧ (25 / 2 : ℚ) ≤ 20) := by
  obtain ⟨h1, h2, h3, _h4, _h5⟩ := C9_min_avg_max scenarioDF "UnitPrice" [10, 15, 20, 5]
    (by decide) (by decide) (by decide) (by with_unfolding_all decide) (by decide)
  refine ⟨?_, ?_, ?_, ?_⟩
  · rw [show ("min(UnitPrice)" : String) = "min(" ++ "UnitPrice" ++ ")" from by decide, h1]
    with_unfolding_all decide
  · rw [show ("avg(UnitPrice)" : String) = "avg(" ++ "UnitPrice" ++ ")" from by decide, h2]
    with_unfolding_all decide
  · rw [show ("max(UnitPrice)" : String) = "max(" ++ "UnitPrice" ++ ")" from by decide, h3]
    with_unfolding_all decide
  · constructor
    · with_unfolding_all decide
    · with_unfolding_all decide

/- ## Claim C3 -/

/-- Claim C3: a formula that reaches the ratio path and splits into a
numerator that evaluates to some value and a denominator that evaluates to
exactly 0 does not raise: it returns exactly 0.0 (the division-by-zero
condition is only logged in the source). -/
theorem C3_ratio_div_zero (df : DataFrame) (F : String) (n d : List Char) (v : ℚ)
    (hagg : isAggregateFn (trim F.data) = false)
    (hslash : (trim F.data).contains '/' = true)
    (hsplit : splitChar '/' (trim F.data) = [n, d])
    (hnum : evaluateSimpleExpr df (trim n) = Except.ok v)
    (hden : evaluateSimpleExpr df (trim d) = Except.ok 0) :
    parseAndExecute df F = Except.ok 0 := by
  rw [parseAndExecute_div hagg hslash]
  unfold executeDivision
  rw [hsplit]
  show (do
    let numV ← evaluateSimpleExpr df (trim n)
    let denV ← evaluateSimpleExpr df (trim d)
    if denV = 0 then pure 0 else pure (numV / denV) : Except EvalError ℚ) = Except.ok 0
  rw [hnum, hden]
  show (if (0 : ℚ) = 0 then (pure 0 : Except EvalError ℚ) else pure (v / 0)) = Except.ok 0
  rw [if_pos rfl]
  rfl

/-- Witness for C3: `Quantity / 0` on the scenario dataset returns 0.0
(the numerator, the column sum 11, is discarded). -/
theorem C3_ratio_div_zero_witness :
    parseAndExecute scenarioDF ("Quantity / 0") = Except.ok 0 := by
  exact C3_ratio_div_zero scenarioDF ("Quantity / 0") (("Quantity ").data) ((" 0").data) 11
    (by decide) (by decide) (by decide)
    (by with_unfolding_all decide) (by with_unfolding_all decide)

/- ## Claim C8 -/

/-- Claim C8: a ratio side that is not an aggregate call but is exactly the
name of an existing column evaluates to the sum of that column (not its raw
value); a side that is neither an aggregate, an existing column name, nor a
parsable numeric literal fails with the cannot-evaluate error. -/
theorem C8_simple_expression (df : DataFrame) (e : List Char)
    (hna : isAggregateFn e = false) :
    (df.hasCol (String.mk e) = true →
      evaluateSimpleExpr df e = Except.ok (colSum (df.get (String.mk e)))) ∧
    (df.hasCol (String.mk e) = false → parseFloat? e = none →
      evaluateSimpleExpr df e = Except.error (EvalError.cannotEvaluate (String.mk e))) := by
  constructor
  · intro hc
    unfold evaluateSimpleExpr
    rw [hna, hc]
    simp
  · intro hc hp
    unfold evaluateSimpleExpr
    rw [hna, hc, hp]
    simp

/-- Witness for C8: on the scenario dataset the side `Quantity` evaluates to
the column sum 11, and the side `Bogus!` fails with cannot-evaluate. -/
theorem C8_simple_expression_witness :
    evaluateSimpleExpr scenarioDF (("Quantity").data) = Except.ok 11 ∧
    evaluateSimpleExpr scenarioDF (("Bogus!").data)
      = Except.error (EvalError.cannotEvaluate "Bogus!") := by
  constructor
  · have h := (C8_simple_expression scenarioDF (("Quantity").data) (by decide)).1 (by decide)
    rw [h]
    with_unfolding_all decide
  · have h := (C8_simple_expression scenarioDF (("Bogus!").data) (by decide)).2
      (by decide) (by with_unfolding_all decide)
    rw [h]

/- ## Claim C10 -/

/-- Claim C10: for every aggregate formula `fn(mid)` with `fn` in the
allowed set, if the (stripped) argument text contains the letters `distinct`
in any case — even inside a column name with no standalone token — the
evaluator takes the distinct-count path: it deletes every occurrence of
`distinct` followed by whitespace, treats the remainder as a column name and
returns its unique-value count (column-not-found if absent); it never
dispatches to sum/count/avg/min/max. -/
theorem C10_distinct_anywhere (df : DataFrame) (fn mid : List Char)
    (hfn : fn ≠ []) (hw : ∀ x ∈ fn, isWordChar x = true) (hnl : '\n' ∉ mid)
    (hallow : ALLOWED_FUNCTIONS.contains (String.mk (fn.map Char.toLower)) = true)
    (hd : containsDistinct (trim mid) = true) :
    executeAggregate df (fn ++ '(' :: (mid ++ [')']))
        = executeDistinctCount df (trim mid) ∧
    executeDistinctCount df (trim mid)
        = (if df.hasCol (String.mk (trim (stripDistinct (trim mid)))) then
            Except.ok ((colNunique (df.get (String.mk (trim (stripDistinct (trim mid))))) : ℚ))
          else Except.error
            (EvalError.columnNotFound [String.mk (trim (stripDistinct (trim mid)))])) := by
  constructor
  · rw [executeAggregate_shape hfn hw hnl, if_pos hallow, if_pos hd]
  · rfl

/-- Witness for C10: `sum(DistinctID)` — the word `distinct` occurring only
inside the column name — still takes the distinct-count path and returns the
unique-value count 2, not the sum 4. -/
theorem C10_distinct_anywhere_witness :
    executeAggregate distinctDF (("sum(DistinctID)").data) = Except.ok 2 := by
  have h := (C10_distinct_anywhere distinctDF (("sum").data) (("DistinctID").data)
    (by decide) (by decide) (by decide) (by decide) (by decide)).1
  rw [show ((("sum(DistinctID)").data : List Char))
    = ("sum").data ++ '(' :: ((("DistinctID").data) ++ [')']) from by decide, h]
  with_unfolding_all decide

/- ## Claim C5 (corrected) -/

/-- Counterexample for C5: `foo(x)` does NOT raise the UnknownFunction error
that enumerates the allowed set — it matches neither the aggregate-prefix
grammar nor the ratio grammar, so it raises the UnsupportedPattern error,
which carries no allowed-function list. -/
theorem C5_counterexample :
    parseAndExecute scenarioDF ("foo(x)")
        = Except.error (EvalError.unsupportedPattern "foo(x)") ∧
    parseAndExecute scenarioDF ("foo(x)")
        ≠ Except.error (EvalError.functionNotAllowed "foo" ALLOWED_FUNCTIONS) := by
  constructor
  · with_unfolding_all decide
  · with_unfolding_all decide

/-- Claim C5 (amended): a formula such as `foo(x)` whose head is not one of
the seven recognised aggregate prefixes and which contains no `/` fails with
the UnsupportedPattern error; the allowed-set-enumerating UnknownFunction
error of `_execute_aggregate` is not reached on this path, because the
aggregate branch is entered only for recognised prefixes. -/
theorem C5_unsupported_pattern (df : DataFrame) (F : String)
    (hagg : isAggregateFn (trim F.data) = false)
    (hslash : (trim F.data).contains '/' = false) :
    parseAndExecute df F
      = Except.error (EvalError.unsupportedPattern (String.mk (trim F.data))) := by
  unfold parseAndExecute
  rw [hagg, hslash]
  simp

/-- Witness for the amended C5, at the concrete formula `foo(x)`. -/
theorem C5_unsupported_pattern_witness :
    parseAndExecute scenarioDF ("foo(x)")
      = Except.error (EvalError.unsupportedPattern "foo(x)") := by
  have h := C5_unsupported_pattern scenarioDF ("foo(x)") (by decide) (by decide)
  rw [h]
  decide

/- ## Claim C6 -/

/-- Claim C6: a column name absent from the dataset makes evaluation fail
with a column-not-found error naming the offending column, with no partial
result, in every aggregate shape: single column, two-column product,
distinct count, min, and max (here `c` is the missing column, `d` any other
identifier). -/
theorem C6_column_not_found (df : DataFrame) (c d : String)
    (hid : isIdent c.data = true) (hidd : isIdent d.data = true)
    (hc : df.hasCol c = false) :
    executeSum df c.data = Except.error (EvalError.columnNotFound [c]) ∧
    executeSum df (c.data ++ ' ' :: '*' :: ' ' :: d.data)
        = Except.error (EvalError.columnNotFound [c, d]) ∧
    executeDistinctCount df c.data = Except.error (EvalError.columnNotFound [c]) ∧
    executeMin df c.data = Except.error (EvalError.columnNotFound [c]) ∧
    executeMax df c.data = Except.error (EvalError.columnNotFound [c]) ∧
    parseAndExecute df ("sum(" ++ c ++ ")")
        = Except.error (EvalError.columnNotFound [c]) := by
  have hstar : c.data.contains '*' = false :=
    contains_eq_false_of_not_mem (isIdent_not_mem hid (by decide))
  have h1 : executeSum df c.data = Except.error (EvalError.columnNotFound [c]) := by
    unfold executeSum
    rw [hstar]
    simp only [Bool.false_eq_true, if_false]
    rw [trim_ident hid]
    rw [show String.mk c.data = c from rfl]
    rw [hc]
    simp
  have h3 : executeDistinctCount df c.data
      = Except.error (EvalError.columnNotFound [c]) := by
    unfold executeDistinctCount
    rw [stripDistinct_of_no_ws (isIdent_no_ws hid), trim_ident hid]
    rw [show String.mk c.data = c from rfl]
    rw [hc]
    simp
  refine ⟨h1, ?_, h3, ?_, ?_, ?_⟩
  · unfold executeSum
    rw [if_pos (contains_star_mid c.data d.data)]
    rw [splitChar_star_mid hid hidd]
    show (if df.hasCol c && df.hasCol d then
        Except.ok (colSum (List.zipWith Cell.mul (df.get c) (df.get d)))
      else Except.error (EvalError.columnNotFound [c, d]))
      = Except.error (EvalError.columnNotFound [c, d])
    rw [hc]
    simp
  · unfold executeMin
    rw [trim_ident hid]
    rw [show String.mk c.data = c from rfl]
    rw [hc]
    simp
  · unfold executeMax
    rw [trim_ident hid]
    rw [show String.mk c.data = c from rfl]
    rw [hc]
    simp
  · rw [parse_sum_ident hid]
    by_cases hdist : containsDistinct c.data = true
    · rw [if_pos hdist]
      exact h3
    · rw [if_neg hdist]
      exact h1

/-- Witness for C6: on the scenario dataset, the column `DoesNotExist` makes
every aggregate shape fail with a column-not-found error naming it. -/
theorem C6_column_not_found_witness :
    executeSum scenarioDF (("DoesNotExist").data)
        = Except.error (EvalError.columnNotFound ["DoesNotExist"]) ∧
    executeSum scenarioDF (("DoesNotExist * Quantity").data)
        = Except.error (EvalError.columnNotFound ["DoesNotExist", "Quantity"]) ∧
    executeDistinctCount scenarioDF (("DoesNotExist").data)
        = Except.error (EvalError.columnNotFound ["DoesNotExist"]) ∧
    executeMin scenarioDF (("DoesNotExist").data)
        = Except.error (EvalError.columnNotFound ["DoesNotExist"]) ∧
    executeMax scenarioDF (("DoesNotExist").data)
        = Except.error (EvalError.columnNotFound ["DoesNotExist"]) ∧
    parseAndExecute scenarioDF ("sum(DoesNotExist)")
        = Except.error (EvalError.columnNotFound ["DoesNotExist"]) := by
  obtain ⟨h1, h2, h3, h4, h5, h6⟩ := C6_column_not_found scenarioDF "DoesNotExist" "Quantity"
    (by decide) (by decide) (by decide)
  refine ⟨h1, ?_, h3, h4, h5, ?_⟩
  · rw [show ((("DoesNotExist * Quantity").data : List Char))
      = ("DoesNotExist").data ++ ' ' :: '*' :: ' ' :: ("Quantity").data from by decide]
    exact h2
  · rw [show ("sum(DoesNotExist)" : String) = "sum(" ++ "DoesNotExist" ++ ")" from by decide]
    exact h6

/- ## Claim C4 (corrected) -/

/-- Counterexample for C4: `sum(Quantity) / count(InvoiceNo)` is NOT handled
as a ratio.  The formula begins with `sum(`, so the aggregate-prefix check
fires first; the greedy argument capture takes everything up to the last
`)`, and evaluation fails with a column-not-found error naming
`Quantity) / count(InvoiceNo` instead of returning the quotient 11/4. -/
theorem C4_counterexample :
    parseAndExecute scenarioDF ("sum(Quantity) / count(InvoiceNo)")
      = Except.error (EvalError.columnNotFound ["Quantity) / count(InvoiceNo"]) := by
  with_unfolding_all decide

/-- Claim C4 (amended): on any dataset with columns `Quantity` and
`InvoiceNo` (and no column literally named `Quantity) / count(InvoiceNo`),
the formula `sum(Quantity) / count(InvoiceNo)` is captured by the aggregate
path and fails with ColumnNotFound; the ratio path evaluates its sides
independently (column side summed, aggregate side via the aggregate path)
only when the whole formula does not begin with an aggregate prefix, as in
`Quantity / count(InvoiceNo)`, which returns sum(Quantity)/count(InvoiceNo). -/
theorem C4_aggregate_captures_ratio (df : DataFrame)
    (h0 : df.hasCol "Quantity) / count(InvoiceNo" = false)
    (h1 : df.hasCol "Quantity" = true) (h2 : df.hasCol "InvoiceNo" = true)
    (hden : colCount (df.get "InvoiceNo") ≠ 0) :
    parseAndExecute df ("sum(Quantity) / count(InvoiceNo)")
        = Except.error (EvalError.columnNotFound ["Quantity) / count(InvoiceNo"]) ∧
    parseAndExecute df ("Quantity / count(InvoiceNo)")
        = Except.ok (colSum (df.get "Quantity") / (colCount (df.get "InvoiceNo") : ℚ)) := by
  constructor
  · rw [parseAndExecute_agg
      (show ("sum(Quantity) / count(InvoiceNo)" : String).data
        = ['s', 'u', 'm'] ++ '(' :: ((("Quantity) / count(InvoiceNo").data) ++ [')'])
        from by decide)
      (by decide) (by decide)]
    rw [executeAggregate_shape (by simp) (by decide) (by decide)]
    rw [show String.mk ((['s', 'u', 'm'] : List Char).map Char.toLower) = "sum" from by decide]
    rw [if_pos (show ALLOWED_FUNCTIONS.contains "sum" = true from by decide)]
    rw [show trim (("Quantity) / count(InvoiceNo").data)
      = ("Quantity) / count(InvoiceNo").data from by decide]
    rw [if_neg (show ¬containsDistinct (("Quantity) / count(InvoiceNo").data) = true
      from by decide)]
    rw [if_pos (show (("sum" : String) == "sum") = true from by decide)]
    unfold executeSum
    rw [if_neg (show ¬(("Quantity) / count(InvoiceNo").data).contains '*' = true
      from by decide)]
    rw [show trim (("Quantity) / count(InvoiceNo").data)
      = ("Quantity) / count(InvoiceNo").data from by decide]
    rw [show String.mk (("Quantity) / count(InvoiceNo").data)
      = "Quantity) / count(InvoiceNo" from rfl]
    rw [h0]
    simp
  · have hnum : evaluateSimpleExpr df (("Quantity").data)
        = Except.ok (colSum (df.get "Quantity")) := by
      unfold evaluateSimpleExpr
      rw [if_neg (show ¬isAggregateFn (("Quantity").data) = true from by decide)]
      rw [show String.mk (("Quantity").data) = "Quantity" from rfl]
      rw [h1]
      simp
    have hcount : evaluateSimpleExpr df (("count(InvoiceNo)").data)
        = Except.ok ((colCount (df.get "InvoiceNo") : ℚ)) := by
      unfold evaluateSimpleExpr
      rw [if_pos (show isAggregateFn (("count(InvoiceNo)").data) = true from by decide)]
      rw [show ((("count(InvoiceNo)").data : List Char))
        = ['c', 'o', 'u', 'n', 't'] ++ '(' :: ((("InvoiceNo").data) ++ [')']) from by decide]
      rw [executeAggregate_shape (by simp) (by decide) (by decide)]
      rw [show String.mk ((['c', 'o', 'u', 'n', 't'] : List Char).map Char.toLower) = "count"
        from by decide]
      rw [if_pos (show ALLOWED_FUNCTIONS.contains "count" = true from by decide)]
      rw [show trim (("InvoiceNo").data) = ("InvoiceNo").data from by decide]
      rw [if_neg (show ¬containsDistinct (("InvoiceNo").data) = true from by decide)]
      rw [if_neg (show ¬(("count" : String) == "sum") = true from by decide)]
      rw [if_pos (show ((("count" : String) == "count")
        || (("count" : String) == "nunique")) = true from by decide)]
      unfold executeCount
      rw [if_neg (show ¬containsDistinct (("InvoiceNo").data) = true from by decide)]
      rw [show trim (("InvoiceNo").data) = ("InvoiceNo").data from by decide]
      rw [show String.mk (("InvoiceNo").data) = "InvoiceNo" from rfl]
      rw [h2]
      simp
    rw [parseAndExecute_div (by decide) (by decide)]
    rw [show trim (("Quantity / count(InvoiceNo)" : String).data)
      = ("Quantity / count(InvoiceNo)").data from by decide]
    unfold executeDivision
    rw [show splitChar '/' (("Quantity / count(InvoiceNo)").data)
      = [("Quantity ").data, (" count(InvoiceNo)").data] from by decide]
    show (do
      let numV ← evaluateSimpleExpr df (trim (("Quantity ").data))
      let denV ← evaluateSimpleExpr df (trim ((" count(InvoiceNo)").data))
      if denV = 0 then pure 0
      else pure (numV / denV) : Except EvalError ℚ)
      = Except.ok (colSum (df.get "Quantity") / (colCount (df.get "InvoiceNo") : ℚ))
    rw [show trim ((("Quantity ").data : List Char)) = ("Quantity").data from by decide]
    rw [show trim (((" count(InvoiceNo)").data : List Char)) = ("count(InvoiceNo)").data
      from by decide]
    rw [hnum, hcount]
    show (if ((colCount (df.get "InvoiceNo") : ℚ)) = 0 then (pure 0 : Except EvalError ℚ)
      else pure (colSum (df.get "Quantity") / (colCount (df.get "InvoiceNo") : ℚ)))
      = Except.ok (colSum (df.get "Quantity") / (colCount (df.get "InvoiceNo") : ℚ))
    rw [if_neg (Nat.cast_ne_zero.mpr hden)]
    rfl

/-- Witness for the amended C4, on the scenario dataset: the aggregate-path
capture fails with ColumnNotFound, while the genuine ratio
`Quantity / count(InvoiceNo)` returns 11/4. -/
theorem C4_aggregate_captures_ratio_witness :
    parseAndExecute scenarioDF ("sum(Quantity) / count(InvoiceNo)")
        = Except.error (EvalError.columnNotFound ["Quantity) / count(InvoiceNo"]) ∧
    parseAndExecute scenarioDF ("Quantity / count(InvoiceNo)") = Except.ok (11 / 4) := by
  obtain ⟨ha, hb⟩ := C4_aggregate_captures_ratio scenarioDF
    (by decide) (by decide) (by decide) (by decide)
  refine ⟨ha, ?_⟩
  rw [hb]
  with_unfolding_all decide
